import Mathlib

/-!
# Verification of the uitstudentlibrary upload/download/delete pipeline

Shallow embedding of the file-sharing front-end's handlers
(`FileUpload.tsx`, `FileList.tsx`, `DownloadFolder.tsx`, `Index.tsx`).
Each handler is modelled as a pure function from its inputs — together
with boolean oracles standing for the success or failure of each external
call (Supabase storage / record store) — to the list of observable events
it performs, in program order: storage uploads issued and settled, record
inserts and deletes, progress-counter updates, diagnostic logs and user
toasts.  Stateful handlers additionally return the updated state.

Arithmetic notes: `Math.round((k / N) * 100)` is modelled as exact
rational half-up rounding (`jsRoundDiv`); JavaScript string falsiness of
the empty string models the `!title` guards.
-/

namespace StudentLibrary

/-- A selected browser `File`: name, `webkitRelativePath`, byte size and
declared MIME type. -/
structure UFile where
  name : String
  relativePath : String
  size : Nat
  contentType : String
deriving DecidableEq, Repr

/-- The fixed override code: `"41134"` appears literally in the delete,
signed-URL download, folder-access and admin-edit checks. -/
def overrideCode : String := "41134"

/-- Observable events of the handlers, in program order. -/
inductive Event where
  | toastMissingInfo
  | toastDuplicate
  | toastSuccess
  | toastError
  | toastAccessDenied
  | toastDeleted
  | toastEmptyFolder
  | toastDownloadStarted
  | toastDownloadFailed
  /-- `supabase.from("shared_files").insert` of a folder record
  (`FileUpload.tsx` folder branch). -/
  | insertFolderRecord (id title path secret : String) (size fileCount : Nat)
  /-- `supabase.from("shared_files").insert` of a single-file record. -/
  | insertFileRecord (title filename path secret : String) (size : Nat)
  /-- A `supabase.storage.from("files").upload(path, ...)` call is issued. -/
  | startUpload (path : String)
  /-- That upload call settles, successfully or not. -/
  | settleUpload (path : String) (ok : Bool)
  /-- `supabase.storage.from("files").remove(keys)`. -/
  | storageRemove (keys : List String)
  /-- `supabase.storage.from("files").list(prefix)`. -/
  | storageList (pre : String)
  /-- `supabase.from("shared_files").delete().eq("id", id)`. -/
  | dbDelete (id : String)
  /-- `console.error` diagnostic. -/
  | logError (msg : String)
  /-- `setUploadProgress(pct)`. -/
  | setProgress (pct : Nat)
  /-- `setProgressMessage(msg)` in the folder download page. -/
  | progressMsg (msg : String)
  /-- `fetch("/api/download-folder?folderId=...&code=...")`. -/
  | archiveRequest (folderId code : String)
  /-- Saving the returned blob under the given filename. -/
  | saveBlob (filename : String)
deriving DecidableEq, Repr

/-! ## Rounding and progress -/

/-- `Math.round (num / den)` for nonnegative arguments: half rounds up. -/
def jsRoundDiv (num den : Nat) : Nat := (2 * num + den) / (2 * den)

/-- `Math.round ((k / total) * 100)` — the progress percentage reported
after `k` of `total` files have been processed. -/
def progressPct (total k : Nat) : Nat := jsRoundDiv (k * 100) total

/-! ## Folder upload (`FileUpload.tsx`, folder branch of `handleUpload`) -/

/-- Storage path of one member file:
`folders/${folderId}/${file.webkitRelativePath}`. -/
def uploadDir (folderId : String) (f : UFile) : String :=
  "folders/" ++ folderId ++ "/" ++ f.relativePath

/-- The `for (let i = 0; i < files.length; i++)` upload loop: each file's
upload is issued and awaited, a failure is logged (`console.error`) and
the loop continues, and `filesProcessed` drives a progress update after
every file.  `uploadOk i` is the oracle for the `i`-th upload's outcome. -/
def uploadLoop (folderId : String) (total : Nat) (uploadOk : Nat → Bool) :
    Nat → List UFile → List Event
  | _, [] => []
  | i, f :: rest =>
      let p := uploadDir folderId f
      Event.startUpload p ::
      Event.settleUpload p (uploadOk i) ::
      ((if uploadOk i then [] else [Event.logError p]) ++
        (Event.setProgress (progressPct total (i + 1)) ::
          uploadLoop folderId total uploadOk (i + 1) rest))

/-- The folder branch of `handleUpload`: guard on missing inputs, insert
the single folder record (size = sum of file sizes, file_count = number
of files), abort with an error toast if that insert fails, otherwise run
the sequential upload loop and toast success. -/
def handleUploadFolder (folderId title secretCode : String)
    (files : List UFile) (insertOk : Bool) (uploadOk : Nat → Bool) :
    List Event :=
  if files.isEmpty || title == "" || secretCode == "" then
    [Event.toastMissingInfo]
  else
    let ins := Event.insertFolderRecord folderId title
      ("folders/" ++ folderId) secretCode
      (files.map (·.size)).sum files.length
    if insertOk then
      ins :: (uploadLoop folderId files.length uploadOk 0 files ++
        [Event.toastSuccess])
    else
      [ins, Event.toastError]

/-! ## Trace observations -/

/-- Paths of the storage uploads issued, in order. -/
def uploadStarts : List Event → List String
  | [] => []
  | Event.startUpload p :: rest => p :: uploadStarts rest
  | _ :: rest => uploadStarts rest

/-- The successive values of the shared progress counter, in order. -/
def progressValues : List Event → List Nat
  | [] => []
  | Event.setProgress n :: rest => n :: progressValues rest
  | _ :: rest => progressValues rest

/-- The diagnostic-log messages, in order. -/
def loggedErrors : List Event → List String
  | [] => []
  | Event.logError m :: rest => m :: loggedErrors rest
  | _ :: rest => loggedErrors rest

/-- The single-file record inserts occurring in a trace. -/
def fileInserts : List Event → List Event
  | [] => []
  | e@(Event.insertFileRecord _ _ _ _ _) :: rest => e :: fileInserts rest
  | _ :: rest => fileInserts rest

/-- Strictly sequential upload discipline: at most one upload is in flight
at any time — every issued upload settles (with a matching path) before
the next one is issued.  The first argument is the path currently in
flight, if any. -/
def seqOk : Option String → List Event → Bool
  | none, [] => true
  | some _, [] => false
  | none, Event.startUpload p :: rest => seqOk (some p) rest
  | none, Event.settleUpload _ _ :: _ => false
  | some p, Event.settleUpload q _ :: rest => p == q && seqOk none rest
  | some _, Event.startUpload _ :: _ => false
  | st, _ :: rest => seqOk st rest

/-- `true` iff no storage upload is issued before the folder record
insert (vacuously `true` when no upload is ever issued). -/
def noStartBeforeFolderInsert : List Event → Bool
  | [] => true
  | Event.startUpload _ :: _ => false
  | Event.insertFolderRecord _ _ _ _ _ _ :: _ => true
  | _ :: rest => noStartBeforeFolderInsert rest

/-! ## Single-file upload (`FileUpload.tsx`) -/

/-- JavaScript `String.split` with a single-character separator, on the
character list of the string (`"".split(sep)` gives `[""]`). -/
def splitChar (sep : Char) : List Char → List (List Char)
  | [] => [[]]
  | c :: cs =>
    let r := splitChar sep cs
    if c == sep then [] :: r
    else
      match r with
      | [] => [[c]]
      | g :: gs => (c :: g) :: gs

/-- `s.split(sep)[0]`. -/
def jsSplitHead (sep : Char) (s : String) : String :=
  ⟨(splitChar sep s.data).headD []⟩

/-- `s.split(sep).pop()`. -/
def jsSplitLast (sep : Char) (s : String) : String :=
  ⟨(splitChar sep s.data).getLastD []⟩

/-- `file.name.split(".").pop()` — the extension used to build the
storage path of a single-file upload. -/
def jsFileExt (s : String) : String := jsSplitLast '.' s

/-- The `checkForDuplicateTitle` query: select records with this exact
title (`limit 1`); on a query error it logs and returns `false`, else
reports whether any matching record exists.  `titles` are the titles of
the records currently in the store; `queryOk` is the oracle for the
select call. -/
def checkForDuplicateTitle (titles : List String) (queryOk : Bool)
    (titleToCheck : String) : Bool :=
  if !queryOk then false
  else titles.any (fun t => t == titleToCheck)

/-- Single-file `handleUpload` of the duplicate-checking variant: guard
on missing inputs, reject a duplicate title, then upload to storage at
`${uuid}.${ext}` and — only if that upload succeeded — insert the record.
`uuid` stands for the generated `crypto.randomUUID()`. -/
def handleUploadSingleV1 (titles : List String) (queryOk : Bool)
    (uuid title secretCode : String) (file : Option UFile)
    (storageOk insertOk : Bool) : List Event :=
  match file with
  | none => [Event.toastMissingInfo]
  | some f =>
    if title == "" || secretCode == "" then [Event.toastMissingInfo]
    else if checkForDuplicateTitle titles queryOk title then
      [Event.toastDuplicate]
    else
      let path := uuid ++ "." ++ jsFileExt f.name
      Event.startUpload path ::
      Event.settleUpload path storageOk ::
      (if storageOk then
        Event.insertFileRecord title f.name path secretCode f.size ::
          (if insertOk then [Event.toastSuccess] else [Event.toastError])
      else [Event.toastError])

/-- The single-file branch of the folder-aware `handleUpload` (no
duplicate check; `is_folder: false` on the inserted record): upload
first, and only on success insert the record. -/
def handleUploadSingleV2 (uuid title secretCode : String) (f : UFile)
    (storageOk insertOk : Bool) : List Event :=
  if title == "" || secretCode == "" then [Event.toastMissingInfo]
  else
    let path := uuid ++ "." ++ jsFileExt f.name
    Event.startUpload path ::
    Event.settleUpload path storageOk ::
    (if storageOk then
      Event.insertFileRecord title f.name path secretCode f.size ::
        (if insertOk then [Event.toastSuccess] else [Event.toastError])
    else [Event.toastError])

/-! ## Access checks (`FileList.tsx`, `FileUpload.tsx` delete dialog) -/

/-- Denial condition of the earliest `downloadFile`:
`if (data.secret_code !== secretCode)` — no override code. -/
def downloadDeniedV1 (storedCode suppliedCode : String) : Bool :=
  storedCode != suppliedCode

/-- Denial condition of the signed-URL `downloadFile` variants:
`if (secretCode !== data.secret_code && secretCode !== "41134")`. -/
def downloadDeniedV2 (storedCode suppliedCode : String) : Bool :=
  suppliedCode != storedCode && suppliedCode != overrideCode

/-- Denial condition of `handleDelete`:
`if (deleteCode !== data.secret_code && deleteCode !== "41134")`. -/
def deleteDenied (storedCode suppliedCode : String) : Bool :=
  suppliedCode != storedCode && suppliedCode != overrideCode

/-! ## Deletion (`handleDelete`) -/

/-- A `shared_files` row (the fields `handleDelete` and the download
flows read). -/
structure FileRecord where
  id : String
  title : String
  filename : String
  filePath : String
  secretCode : String
  isFolder : Bool
deriving DecidableEq, Repr

/-- The record store together with the keys present in the `files`
storage bucket. -/
structure Store where
  records : List FileRecord
  storage : List String
deriving DecidableEq, Repr

/-- `.select(...).eq("id", id).single()`. -/
def findRecord (recs : List FileRecord) (id : String) : Option FileRecord :=
  recs.find? (fun r => r.id == id)

/-- Effect of `storage.remove(keys)` on the bucket: the listed keys are
no longer present. -/
def storageRemoveKeys (storage keys : List String) : List String :=
  storage.filter (fun k => !(keys.contains k))

/-- `handleDelete`: fetch the record, check the delete code against the
stored secret code and the override code, remove the single key
`data.file_path` from storage, then delete the database record.
`removeOk` / `dbOk` are oracles for the two external calls; each failure
aborts with an error toast, leaving the remaining state unchanged. -/
def handleDelete (st : Store) (targetId deleteCode : String)
    (removeOk dbOk : Bool) : Store × List Event :=
  match findRecord st.records targetId with
  | none => (st, [Event.toastError])
  | some r =>
    if deleteDenied r.secretCode deleteCode then
      (st, [Event.toastAccessDenied])
    else if !removeOk then
      (st, [Event.storageRemove [r.filePath], Event.toastError])
    else
      let st1 : Store :=
        { st with storage := storageRemoveKeys st.storage [r.filePath] }
      if !dbOk then
        (st1, [Event.storageRemove [r.filePath], Event.toastError])
      else
        ({ st1 with records := st1.records.filter (fun q => !(q.id == targetId)) },
         [Event.storageRemove [r.filePath], Event.dbDelete targetId,
          Event.toastDeleted])

/-- `key` lies under the folder prefix `pre`, i.e. starts with `pre ++ "/"`. -/
def underPrefix (pre key : String) : Bool :=
  List.isPrefixOf (pre ++ "/").data key.data

/-! ## Folder download (`DownloadFolder.tsx`, `handleDownload`) -/

/-- `handleDownload`: list the folder's storage prefix; a listing error
is thrown and caught (error message and failure toast); a `null` or
empty listing reports an empty folder and returns before any archive
request; otherwise request the server-side ZIP and save the blob
(`fetchOk` is the oracle for the archive fetch). -/
def handleDownload (folderId code folderTitle folderPath : String)
    (listResult : Except String (Option (List String))) (fetchOk : Bool) :
    List Event :=
  Event.progressMsg "Preparing your folder for download..." ::
  Event.progressMsg "Listing files in folder..." ::
  Event.storageList folderPath ::
  match listResult with
  | .error _ =>
    [Event.logError "Error listing folder files",
     Event.logError "Error creating ZIP",
     Event.progressMsg "Error creating ZIP file. Try again later.",
     Event.toastDownloadFailed]
  | .ok none => [Event.toastEmptyFolder]
  | .ok (some entries) =>
    if entries.isEmpty then [Event.toastEmptyFolder]
    else
      Event.progressMsg
        ("Found " ++ toString entries.length ++ " files. Creating ZIP archive...") ::
      Event.archiveRequest folderId code ::
      (if fetchOk then
        [Event.saveBlob (folderTitle ++ ".zip"),
         Event.progressMsg "Download complete!",
         Event.toastDownloadStarted]
      else
        [Event.logError "Error creating ZIP",
         Event.progressMsg "Error creating ZIP file. Try again later.",
         Event.toastDownloadFailed])

/-! ## Selection (`handleFileChange`, folder-aware variant) -/

/-- The component state `handleFileChange` updates. -/
structure SelectionState where
  files : List UFile
  title : String
  isFolder : Bool
deriving DecidableEq, Repr

/-- `handleFileChange`: on a non-empty selection, record the files; in
directory mode additionally derive the title from the first file's
top-level directory (`webkitRelativePath.split('/')[0]`) and mark the
selection as a folder.  The second component is the list of UI events
emitted (toasts / warnings); the handler emits none. -/
def handleFileChange (prev : SelectionState) (targetFiles : List UFile)
    (webkitdirectory : Bool) : SelectionState × List Event :=
  match targetFiles with
  | [] => (prev, [])
  | firstFile :: _ =>
    let st := { prev with files := targetFiles }
    if webkitdirectory then
      ({ st with title := jsSplitHead '/' firstFile.relativePath,
                 isFolder := true }, [])
    else
      ({ st with isFolder := false }, [])

/-- Total byte size of a selection. -/
def totalSize (files : List UFile) : Nat := (files.map (·.size)).sum

/-! ## Formalization of the claimed batched-concurrent discipline -/

/-- Trace position of the issuing of the upload of `p`. -/
def startPos (tr : List Event) (p : String) : Nat :=
  tr.findIdx (fun e => match e with
    | Event.startUpload q => q == p
    | _ => false)

/-- Trace position of the settling of the upload of `p`. -/
def settlePos (tr : List Event) (p : String) : Nat :=
  tr.findIdx (fun e => match e with
    | Event.settleUpload q _ => q == p
    | _ => false)

/-- The claimed pipeline shape for maximum batch size `B`: the files are
partitioned into contiguous batches (file `i` belongs to batch `i / B`),
all uploads within one batch are issued concurrently (each is issued
before any of them settles), and batch `k+1` starts only after batch `k`
has fully settled. -/
def batchedConcurrent (B : Nat) (folderId : String) (files : List UFile)
    (tr : List Event) : Prop :=
  (∀ i j (hi : i < files.length) (hj : j < files.length),
    i / B = j / B →
    startPos tr (uploadDir folderId (files.get ⟨j, hj⟩)) <
      settlePos tr (uploadDir folderId (files.get ⟨i, hi⟩))) ∧
  (∀ i j (hi : i < files.length) (hj : j < files.length),
    i / B < j / B →
    settlePos tr (uploadDir folderId (files.get ⟨i, hi⟩)) <
      startPos tr (uploadDir folderId (files.get ⟨j, hj⟩)))

/-! ## Concrete inputs used by counterexamples and witnesses -/

/-- Two concrete member files of a folder selection named `notes`. -/
def fileA : UFile := ⟨"a.txt", "notes/a.txt", 1, "text/plain"⟩

/-- See `fileA`. -/
def fileB : UFile := ⟨"b.txt", "notes/b.txt", 2, "text/plain"⟩

/-- The trace of uploading the folder `notes` with two files, both
uploads succeeding. -/
def twoFileTrace : List Event :=
  handleUploadFolder "fid" "notes" "c" [fileA, fileB] true (fun _ => true)

/-- A folder record whose two member objects live under its prefix. -/
def cxFolderRecord : FileRecord :=
  ⟨"fid", "notes", "notes", "folders/fid", "s", true⟩

/-- A store holding `cxFolderRecord` and its two member objects. -/
def cxStore : Store :=
  ⟨[cxFolderRecord], ["folders/fid/notes/a.txt", "folders/fid/notes/b.txt"]⟩

/-- A single-file record used to witness deletion. -/
def wFileRecord : FileRecord := ⟨"id1", "doc", "d.pdf", "k1.pdf", "s", false⟩

/-- A store holding `wFileRecord` and its single object. -/
def wStore : Store := ⟨[wFileRecord], ["k1.pdf"]⟩

/-- A single selected file larger than the claimed 2 GiB ceiling. -/
def oversizedFile : UFile :=
  ⟨"big.bin", "big.bin", 2147483649, "application/octet-stream"⟩

/-! ## General lemmas about the upload loop -/

theorem uploadStarts_append (l1 l2 : List Event) :
    uploadStarts (l1 ++ l2) = uploadStarts l1 ++ uploadStarts l2 := by
  induction l1 with
  | nil => rfl
  | cons e rest ih => cases e <;> simp [uploadStarts, ih]

theorem progressValues_append (l1 l2 : List Event) :
    progressValues (l1 ++ l2) = progressValues l1 ++ progressValues l2 := by
  induction l1 with
  | nil => rfl
  | cons e rest ih => cases e <;> simp [progressValues, ih]

theorem loggedErrors_append (l1 l2 : List Event) :
    loggedErrors (l1 ++ l2) = loggedErrors l1 ++ loggedErrors l2 := by
  induction l1 with
  | nil => rfl
  | cons e rest ih => cases e <;> simp [loggedErrors, ih]

theorem uploadStarts_uploadLoop (fid : String) (total : Nat) (ok : Nat → Bool)
    (fs : List UFile) : ∀ i,
    uploadStarts (uploadLoop fid total ok i fs) = fs.map (uploadDir fid) := by
  induction fs with
  | nil => intro i; rfl
  | cons f rest ih =>
      intro i
      cases h : ok i <;>
        simp [uploadLoop, uploadStarts, uploadStarts_append, h, ih]

theorem progressValues_uploadLoop (fid : String) (total : Nat) (ok : Nat → Bool)
    (fs : List UFile) : ∀ i,
    progressValues (uploadLoop fid total ok i fs) =
      (List.range fs.length).map (fun k => progressPct total (i + k + 1)) := by
  induction fs with
  | nil => intro i; rfl
  | cons f rest ih =>
      intro i
      cases h : ok i <;>
        simp [uploadLoop, progressValues, progressValues_append, h, ih,
          List.range_succ_eq_map, Function.comp] <;>
        exact fun a _ => by congr 1; omega

theorem loggedErrors_uploadLoop (fid : String) (total : Nat) (ok : Nat → Bool)
    (fs : List UFile) : ∀ i,
    loggedErrors (uploadLoop fid total ok i fs) =
      ((List.enumFrom i fs).filter (fun p => !ok p.1)).map
        (fun p => uploadDir fid p.2) := by
  induction fs with
  | nil => intro i; rfl
  | cons f rest ih =>
      intro i
      cases h : ok i <;>
        simp [uploadLoop, loggedErrors, loggedErrors_append, h, ih,
          List.enumFrom, List.filter]

theorem seqOk_uploadLoop (fid : String) (total : Nat) (ok : Nat → Bool)
    (fs : List UFile) : ∀ (i : Nat) (tail : List Event),
    seqOk none tail = true →
    seqOk none (uploadLoop fid total ok i fs ++ tail) = true := by
  induction fs with
  | nil => intro i tail h; simpa using h
  | cons f rest ih =>
      intro i tail h
      cases hok : ok i <;> simp [uploadLoop, seqOk, hok] <;>
        exact ih (i + 1) tail h

theorem progressPct_mono (total : Nat) {a b : Nat} (h : a ≤ b) :
    progressPct total a ≤ progressPct total b := by
  unfold progressPct jsRoundDiv
  exact Nat.div_le_div_right (by omega)

theorem progressPct_self {n : Nat} (h : 1 ≤ n) : progressPct n n = 100 := by
  unfold progressPct jsRoundDiv
  have h2 : 2 * (n * 100) + n = n + 2 * n * 100 := by ring
  rw [h2, Nat.add_mul_div_left _ _ (by omega), Nat.div_eq_of_lt (by omega)]

theorem handleUploadFolder_eq (folderId title secretCode : String)
    (files : List UFile) (uploadOk : Nat → Bool)
    (hf : files ≠ []) (ht : title ≠ "") (hc : secretCode ≠ "") :
    handleUploadFolder folderId title secretCode files true uploadOk =
      Event.insertFolderRecord folderId title ("folders/" ++ folderId)
          secretCode (files.map (·.size)).sum files.length ::
        (uploadLoop folderId files.length uploadOk 0 files ++
          [Event.toastSuccess]) := by
  have h1 : files.isEmpty = false := by
    cases files with
    | nil => exact absurd rfl hf
    | cons f fs => rfl
  have h2 : (title == "") = false := beq_eq_false_iff_ne.mpr ht
  have h3 : (secretCode == "") = false := beq_eq_false_iff_ne.mpr hc
  unfold handleUploadFolder
  rw [h1, h2, h3]
  rfl

theorem getLast?_progressRange {N : Nat} (h : 1 ≤ N) :
    ((List.range N).map (fun k => progressPct N (k + 1))).getLast? =
      some 100 := by
  obtain ⟨m, rfl⟩ : ∃ m, N = m + 1 := ⟨N - 1, by omega⟩
  rw [List.range_succ, List.map_append]
  simp [progressPct_self h]

theorem find?_filter_ne (l : List FileRecord) (t : String) :
    (l.filter (fun q => !(q.id == t))).find? (fun r => r.id == t) = none := by
  induction l with
  | nil => rfl
  | cons a rest ih =>
      cases h : a.id == t <;>
        simp [List.filter_cons, List.find?_cons, h, ih]

/-! ## Claims -/

/-- C1: the claim that a folder upload of `N` files with maximum batch
size `B` proceeds in `ceil(N/B)` contiguous batches whose uploads are
issued concurrently is false on the code: already for two files with
`B = 100` (one claimed batch), the second upload is not issued before
the first settles — the loop awaits each upload before issuing the
next. -/
theorem C1_counterexample :
    ¬ batchedConcurrent 100 "fid" [fileA, fileB] twoFileTrace := by
  intro h
  have h01 := h.1 0 1 (by decide) (by decide) (by decide)
  exact absurd h01 (by decide)

/-- C1 (amended): the folder upload pipeline is strictly sequential —
the degenerate `B = 1` case: each file's upload settles before the next
is issued, the uploads are issued exactly once each in the original
selection order, every file is counted (one progress update per file),
and the final reported progress is 100. -/
theorem C1_amended (folderId title secretCode : String) (files : List UFile)
    (uploadOk : Nat → Bool)
    (hf : files ≠ []) (ht : title ≠ "") (hc : secretCode ≠ "") :
    uploadStarts (handleUploadFolder folderId title secretCode files true
        uploadOk) = files.map (uploadDir folderId) ∧
    seqOk none (handleUploadFolder folderId title secretCode files true
        uploadOk) = true ∧
    (progressValues (handleUploadFolder folderId title secretCode files true
        uploadOk)).length = files.length ∧
    (progressValues (handleUploadFolder folderId title secretCode files true
        uploadOk)).getLast? = some 100 := by
  rw [handleUploadFolder_eq folderId title secretCode files uploadOk hf ht hc]
  have hN : 1 ≤ files.length := List.length_pos.mpr hf
  refine ⟨?_, ?_, ?_, ?_⟩
  · simp [uploadStarts, uploadStarts_append, uploadStarts_uploadLoop]
  · simp only [seqOk]
    exact seqOk_uploadLoop _ _ _ _ 0 _ rfl
  · simp [progressValues, progressValues_append, progressValues_uploadLoop]
  · simp only [progressValues, progressValues_append,
      progressValues_uploadLoop, Nat.zero_add, List.append_nil]
    exact getLast?_progressRange hN

/-- C1 witness: the amended theorem applied to the concrete two-file
folder upload. -/
theorem C1_witness :
    uploadStarts (handleUploadFolder "fid" "notes" "c" [fileA, fileB] true
        (fun _ => true)) = [fileA, fileB].map (uploadDir "fid") ∧
    seqOk none (handleUploadFolder "fid" "notes" "c" [fileA, fileB] true
        (fun _ => true)) = true ∧
    (progressValues (handleUploadFolder "fid" "notes" "c" [fileA, fileB] true
        (fun _ => true))).length = [fileA, fileB].length ∧
    (progressValues (handleUploadFolder "fid" "notes" "c" [fileA, fileB] true
        (fun _ => true))).getLast? = some 100 :=
  C1_amended "fid" "notes" "c" [fileA, fileB] (fun _ => true)
    (by decide) (by decide) (by decide)

/-- C2: after the `k`-th of `N` files settles (success or failure alike)
the progress counter is set to `round(k / N * 100)`; the sequence of
reported values is monotonically non-decreasing and ends at 100. -/
theorem C2_progress (folderId title secretCode : String) (files : List UFile)
    (uploadOk : Nat → Bool)
    (hf : files ≠ []) (ht : title ≠ "") (hc : secretCode ≠ "") :
    progressValues (handleUploadFolder folderId title secretCode files true
        uploadOk) =
      (List.range files.length).map
        (fun k => progressPct files.length (k + 1)) ∧
    (progressValues (handleUploadFolder folderId title secretCode files true
        uploadOk)).Pairwise (· ≤ ·) ∧
    (progressValues (handleUploadFolder folderId title secretCode files true
        uploadOk)).getLast? = some 100 := by
  have hN : 1 ≤ files.length := List.length_pos.mpr hf
  have hv : progressValues (handleUploadFolder folderId title secretCode files
      true uploadOk) =
      (List.range files.length).map
        (fun k => progressPct files.length (k + 1)) := by
    rw [handleUploadFolder_eq folderId title secretCode files uploadOk hf ht hc]
    simp [progressValues, progressValues_append, progressValues_uploadLoop]
  refine ⟨hv, ?_, ?_⟩
  · rw [hv, List.pairwise_map]
    exact (List.pairwise_lt_range files.length).imp
      (fun hab => progressPct_mono _ (by omega))
  · rw [hv]
    exact getLast?_progressRange hN

/-- C2 witness: the theorem applied to the concrete two-file upload in
which the second upload fails. -/
theorem C2_witness :
    progressValues (handleUploadFolder "fid" "notes" "c" [fileA, fileB] true
        (fun i => i == 0)) =
      (List.range 2).map (fun k => progressPct 2 (k + 1)) ∧
    (progressValues (handleUploadFolder "fid" "notes" "c" [fileA, fileB] true
        (fun i => i == 0))).Pairwise (· ≤ ·) ∧
    (progressValues (handleUploadFolder "fid" "notes" "c" [fileA, fileB] true
        (fun i => i == 0))).getLast? = some 100 :=
  C2_progress "fid" "notes" "c" [fileA, fileB] (fun i => i == 0)
    (by decide) (by decide) (by decide)

/-- C5: when the folder record insert fails, the whole operation aborts
before any file is uploaded — the trace contains no storage upload, for
every selection and every per-file oracle. -/
theorem C5_insert_failure_aborts (folderId title secretCode : String)
    (files : List UFile) (uploadOk : Nat → Bool) :
    uploadStarts (handleUploadFolder folderId title secretCode files false
        uploadOk) = [] := by
  unfold handleUploadFolder
  split
  · rfl
  · rfl

/-- C6: an individual upload failure is logged and otherwise ignored —
every file is attempted exactly once (no retry) in the original order,
exactly the failed paths are logged, every file (failed ones included)
is counted by a progress update, and the pipeline still runs to
completion (it ends with the success toast). -/
theorem C6_failure_ignored (folderId title secretCode : String)
    (files : List UFile) (uploadOk : Nat → Bool)
    (hf : files ≠ []) (ht : title ≠ "") (hc : secretCode ≠ "") :
    uploadStarts (handleUploadFolder folderId title secretCode files true
        uploadOk) = files.map (uploadDir folderId) ∧
    loggedErrors (handleUploadFolder folderId title secretCode files true
        uploadOk) =
      ((List.enumFrom 0 files).filter (fun p => !uploadOk p.1)).map
        (fun p => uploadDir folderId p.2) ∧
    (progressValues (handleUploadFolder folderId title secretCode files true
        uploadOk)).length = files.length ∧
    (handleUploadFolder folderId title secretCode files true
        uploadOk).getLast? = some Event.toastSuccess := by
  rw [handleUploadFolder_eq folderId title secretCode files uploadOk hf ht hc]
  refine ⟨?_, ?_, ?_, ?_⟩
  · simp [uploadStarts, uploadStarts_append, uploadStarts_uploadLoop]
  · simp [loggedErrors, loggedErrors_append, loggedErrors_uploadLoop]
  · simp [progressValues, progressValues_append, progressValues_uploadLoop]
  · rw [← List.cons_append, List.getLast?_concat]

/-- C6 witness: the theorem applied to the concrete two-file upload in
which the first upload fails. -/
theorem C6_witness :
    uploadStarts (handleUploadFolder "fid" "notes" "c" [fileA, fileB] true
        (fun i => i != 0)) = [fileA, fileB].map (uploadDir "fid") ∧
    loggedErrors (handleUploadFolder "fid" "notes" "c" [fileA, fileB] true
        (fun i => i != 0)) =
      ((List.enumFrom 0 [fileA, fileB]).filter (fun p => !(p.1 != 0))).map
        (fun p => uploadDir "fid" p.2) ∧
    (progressValues (handleUploadFolder "fid" "notes" "c" [fileA, fileB] true
        (fun i => i != 0))).length = [fileA, fileB].length ∧
    (handleUploadFolder "fid" "notes" "c" [fileA, fileB] true
        (fun i => i != 0)).getLast? = some Event.toastSuccess :=
  C6_failure_ignored "fid" "notes" "c" [fileA, fileB] (fun i => i != 0)
    (by decide) (by decide) (by decide)

/-- C3: the claim that download and delete both accept the override code
is false on the code: the earliest `downloadFile` variant compares only
against the stored secret code, so for a record whose stored code is
`"abc"` the supplied override code `"41134"` is denied there. -/
theorem C3_counterexample :
    ("41134" = "abc" ∨ "41134" = overrideCode) ∧
    downloadDeniedV1 "abc" "41134" = true := by
  constructor
  · exact Or.inr rfl
  · decide

/-- C3 (amended): the delete check and the signed-URL download variants
grant access iff the supplied code equals the stored secret code or the
fixed override code — in particular the override code opens any record
there; the earliest download variant grants access iff the supplied code
equals the stored code, with no override. -/
theorem C3_amended (stored supplied : String) :
    (downloadDeniedV2 stored supplied = false ↔
      (supplied = stored ∨ supplied = overrideCode)) ∧
    (deleteDenied stored supplied = false ↔
      (supplied = stored ∨ supplied = overrideCode)) ∧
    (downloadDeniedV1 stored supplied = false ↔ supplied = stored) := by
  refine ⟨?_, ?_, ?_⟩
  · unfold downloadDeniedV2
    by_cases h1 : supplied = stored
    · simp [h1]
    · by_cases h2 : supplied = overrideCode
      · simp [h1, h2]
      · simp [h1, h2]
  · unfold deleteDenied
    by_cases h1 : supplied = stored
    · simp [h1]
    · by_cases h2 : supplied = overrideCode
      · simp [h1, h2]
      · simp [h1, h2]
  · unfold downloadDeniedV1
    by_cases h1 : supplied = stored
    · simp [h1]
    · simp [h1, Ne.symm h1]

/-- C4: the claim that deleting a folder removes every member object
under its prefix (listed in ≤1000-key batches) is false on the code:
`handleDelete` removes only the single key `file_path` and never lists
the prefix, so after deleting the concrete folder record its member
object is still in storage — although the record itself is gone. -/
theorem C4_counterexample :
    cxFolderRecord.isFolder = true ∧
    underPrefix cxFolderRecord.filePath "folders/fid/notes/a.txt" = true ∧
    "folders/fid/notes/a.txt" ∈ (handleDelete cxStore "fid" "s" true true).1.storage ∧
    findRecord (handleDelete cxStore "fid" "s" true true).1.records "fid" =
      none := by
  decide

/-- C4 (amended): on an authorised delete whose two external calls
succeed, `handleDelete` removes exactly the single storage object at the
record's stored `file_path`, performs no prefix listing, then deletes
the record — after which looking the record up yields not-found. -/
theorem C4_amended (st : Store) (targetId deleteCode : String)
    (r : FileRecord)
    (hfind : findRecord st.records targetId = some r)
    (hcode : deleteDenied r.secretCode deleteCode = false) :
    handleDelete st targetId deleteCode true true =
      ({ records := st.records.filter (fun q => !(q.id == targetId)),
         storage := storageRemoveKeys st.storage [r.filePath] },
       [Event.storageRemove [r.filePath], Event.dbDelete targetId,
        Event.toastDeleted]) ∧
    findRecord (handleDelete st targetId deleteCode true true).1.records
      targetId = none ∧
    (∀ pre, Event.storageList pre ∉
      (handleDelete st targetId deleteCode true true).2) := by
  have heq : handleDelete st targetId deleteCode true true =
      ({ records := st.records.filter (fun q => !(q.id == targetId)),
         storage := storageRemoveKeys st.storage [r.filePath] },
       [Event.storageRemove [r.filePath], Event.dbDelete targetId,
        Event.toastDeleted]) := by
    unfold handleDelete
    rw [hfind]
    simp [hcode]
  refine ⟨heq, ?_, ?_⟩
  · rw [heq]
    exact find?_filter_ne st.records targetId
  · intro pre
    rw [heq]
    simp

/-- C4 witness: the amended theorem applied to the concrete single-file
record store. -/
theorem C4_witness :
    handleDelete wStore "id1" "s" true true =
      ({ records := wStore.records.filter (fun q => !(q.id == "id1")),
         storage := storageRemoveKeys wStore.storage ["k1.pdf"] },
       [Event.storageRemove ["k1.pdf"], Event.dbDelete "id1",
        Event.toastDeleted]) ∧
    findRecord (handleDelete wStore "id1" "s" true true).1.records "id1" =
      none ∧
    (∀ pre, Event.storageList pre ∉
      (handleDelete wStore "id1" "s" true true).2) :=
  C4_amended wStore "id1" "s" wFileRecord (by decide) (by decide)

/-- C7: the claim that a duplicate-titled single-file upload is always
rejected before any storage write is false on the code: when the
duplicate-check query itself errors, `checkForDuplicateTitle` returns
`false` and the upload proceeds — here a record titled `"t"` exists, the
check query fails, and the duplicate upload still writes to storage. -/
theorem C7_counterexample :
    ("t" ∈ ["t"]) ∧
    uploadStarts (handleUploadSingleV1 ["t"] false "u" "t" "c" (some fileA)
      true true) = ["u.txt"] := by
  decide

/-- C7 (amended): provided the pre-insert existence check query succeeds,
a single-file upload whose title matches an existing record's title is
rejected — the handler emits only the duplicate toast, with no storage
write and no record insert. -/
theorem C7_amended (titles : List String) (uuid title secretCode : String)
    (f : UFile) (storageOk insertOk : Bool)
    (ht : title ≠ "") (hc : secretCode ≠ "")
    (hdup : titles.any (fun t => t == title) = true) :
    handleUploadSingleV1 titles true uuid title secretCode (some f)
        storageOk insertOk = [Event.toastDuplicate] ∧
    uploadStarts (handleUploadSingleV1 titles true uuid title secretCode
        (some f) storageOk insertOk) = [] ∧
    fileInserts (handleUploadSingleV1 titles true uuid title secretCode
        (some f) storageOk insertOk) = [] := by
  have h2 : (title == "") = false := beq_eq_false_iff_ne.mpr ht
  have h3 : (secretCode == "") = false := beq_eq_false_iff_ne.mpr hc
  have heq : handleUploadSingleV1 titles true uuid title secretCode (some f)
      storageOk insertOk = [Event.toastDuplicate] := by
    unfold handleUploadSingleV1 checkForDuplicateTitle
    rw [h2, h3]
    simp [hdup]
  exact ⟨heq, by rw [heq]; rfl, by rw [heq]; rfl⟩

/-- C7 witness: the amended theorem applied to a concrete store already
holding the title `"t"`. -/
theorem C7_witness :
    handleUploadSingleV1 ["t"] true "u" "t" "c" (some fileA) true true =
      [Event.toastDuplicate] ∧
    uploadStarts (handleUploadSingleV1 ["t"] true "u" "t" "c" (some fileA)
      true true) = [] ∧
    fileInserts (handleUploadSingleV1 ["t"] true "u" "t" "c" (some fileA)
      true true) = [] :=
  C7_amended ["t"] "u" "t" "c" fileA true true (by decide) (by decide)
    (by decide)

/-- C8: when the folder listing succeeds but returns no entries (`null`
or an empty array), `handleDownload` reports the empty-folder condition
and returns without issuing any archive request. -/
theorem C8_empty_folder (folderId code folderTitle folderPath : String)
    (fetchOk : Bool) :
    (handleDownload folderId code folderTitle folderPath
        (Except.ok (some [])) fetchOk =
      [Event.progressMsg "Preparing your folder for download...",
       Event.progressMsg "Listing files in folder...",
       Event.storageList folderPath,
       Event.toastEmptyFolder]) ∧
    (handleDownload folderId code folderTitle folderPath
        (Except.ok none) fetchOk =
      [Event.progressMsg "Preparing your folder for download...",
       Event.progressMsg "Listing files in folder...",
       Event.storageList folderPath,
       Event.toastEmptyFolder]) ∧
    (∀ a b, Event.archiveRequest a b ∉
      handleDownload folderId code folderTitle folderPath
        (Except.ok (some [])) fetchOk) := by
  refine ⟨rfl, rfl, ?_⟩
  intro a b
  simp [handleDownload]

/-- C9: the claim that an oversized selection triggers a warning is
false on the code: `handleFileChange` performs no count or size ceiling
check — a selection exceeding 2 GiB is recorded with no warning event
emitted. -/
theorem C9_counterexample :
    totalSize [oversizedFile] > 2 * 1024 * 1024 * 1024 ∧
    (handleFileChange ⟨[], "", false⟩ [oversizedFile] false).2 = [] := by
  decide

/-- C9 (amended): the selection stage records the files and, in
directory mode, derives the title from the first file's top-level
directory; it performs no ceiling validation of any kind — it emits no
warning for any selection whatsoever. -/
theorem C9_amended (prev : SelectionState) (f : UFile) (rest : List UFile)
    (webkitdirectory : Bool) :
    (handleFileChange prev [] webkitdirectory = (prev, [])) ∧
    (handleFileChange prev (f :: rest) true =
      ({ prev with files := f :: rest,
                   title := jsSplitHead '/' f.relativePath,
                   isFolder := true }, [])) ∧
    (handleFileChange prev (f :: rest) false =
      ({ prev with files := f :: rest, isFolder := false }, [])) ∧
    (handleFileChange prev (f :: rest) webkitdirectory).2 = [] := by
  refine ⟨rfl, rfl, rfl, ?_⟩
  cases webkitdirectory <;> rfl

/-- C10: if a single file's storage upload fails, no record is inserted
for it — both single-file variants abort before their insert — whereas
the folder flow inserts its record before any storage upload is issued. -/
theorem C10_insert_order :
    (∀ titles queryOk uuid title code f insertOk,
      fileInserts (handleUploadSingleV1 titles queryOk uuid title code f
        false insertOk) = []) ∧
    (∀ uuid title code f insertOk,
      fileInserts (handleUploadSingleV2 uuid title code f false insertOk) =
        []) ∧
    (∀ folderId title code files insertOk uploadOk,
      noStartBeforeFolderInsert
        (handleUploadFolder folderId title code files insertOk uploadOk) =
        true) := by
  refine ⟨?_, ?_, ?_⟩
  · intro titles queryOk uuid title code f insertOk
    unfold handleUploadSingleV1
    cases f with
    | none => rfl
    | some f =>
        split
        · rfl
        · cases hdup : checkForDuplicateTitle titles queryOk title <;>
            simp [hdup, fileInserts] <;> split <;> rfl
  · intro uuid title code f insertOk
    unfold handleUploadSingleV2
    split <;> rfl
  · intro folderId title code files insertOk uploadOk
    unfold handleUploadFolder
    split
    · rfl
    · split <;> rfl

end StudentLibrary
